import Mathlib

/-!
Shallow embedding of libavfilter/buffersrc.c (FFmpeg buffer source filter).

The buffer source stage holds a FIFO of frame handles between a producer
(av_buffersrc_add_frame_flags / av_buffersrc_add_frame_internal) and a
consumer (request_frame).  External libavutil helpers (allocation, fifo
reallocation, av_frame_ref) are modelled by an oracle recording their
return values; frame handles are modelled as `Option FrameProps` where
`none` is an empty (moved-from or absent) handle.
-/

namespace BufferSrc

/-- Metadata carried by an AVFrame that buffersrc.c inspects:
video geometry, audio format, and the channel layout / count pair. -/
structure FrameProps where
  width : Int
  height : Int
  format : Int
  sample_rate : Int
  channel_layout : Nat
  channels : Int
deriving DecidableEq, Repr

/-- Media type of ctx->outputs[0]: video for the buffer filter, audio for
abuffer, other for anything else (hits the default: case). -/
inductive MediaType where
  | video
  | audio
  | other
deriving DecidableEq, Repr

/-- av_log levels used by the file. -/
inductive LogLevel where
  | error
  | info
  | verbose
deriving DecidableEq, Repr

/-- The distinct diagnostics emitted on the submit path. -/
inductive LogEvent where
  | videoParamChange
  | audioParamChange
  | layoutChannelsMismatch
deriving DecidableEq, Repr

/-- The BufferSourceContext fields that the submit/pull operations touch. -/
structure BufferSourceContext where
  fifo : List FrameProps
  nb_failed_requests : Nat
  warning_limit : Nat
  w : Int
  h : Int
  pix_fmt : Int
  sample_rate : Int
  sample_fmt : Int
  channels : Int
  channel_layout : Nat
  eof : Bool
deriving DecidableEq, Repr

/-- The world visible to the stage: its context, the media type of its
single output, the frames delivered downstream so far (in order), the
log trace, and a ledger `live` counting frame wrappers currently
allocated by the stage and not yet freed or handed downstream. -/
structure State where
  ctx : BufferSourceContext
  media : MediaType
  downstream : List FrameProps
  log : List (LogLevel × LogEvent)
  live : Int
deriving DecidableEq, Repr

/-- AV_BUFFERSRC_FLAG_* bits passed to submit. -/
structure Flags where
  keep_ref : Bool
  no_check_format : Bool
  push : Bool
deriving DecidableEq, Repr

/-- Return values of the external allocation-flavoured calls made on one
submit path: fifo space probe, av_fifo_realloc2, av_frame_alloc inside
the internal add, av_fifo_generic_write, and (for the KEEP_REF wrapper)
av_frame_alloc and av_frame_ref. -/
structure AllocOracle where
  fifo_has_space : Bool
  fifo_realloc_ret : Int
  frame_alloc_ok : Bool
  fifo_write_ret : Int
  copy_alloc_ok : Bool
  frame_ref_ret : Int
deriving DecidableEq, Repr

def AVERROR_EAGAIN : Int := -11
def AVERROR_ENOMEM : Int := -12
def AVERROR_EINVAL : Int := -22
def AVERROR_EOF : Int := -541478725
def AV_SAMPLE_FMT_NONE : Int := -1
def AV_PIX_FMT_NONE : Int := -1

/-- av_get_channel_layout_nb_channels: number of set bits of the layout
bitmask (libavutil popcount). -/
def nbChannels (n : Nat) : Nat := (Nat.bits n).count true

/-- ff_filter_frame: hand one frame to the downstream link.  Downstream
acceptance is external to this file; modelled as success. -/
def ff_filter_frame (st : State) (f : FrameProps) : Int × State :=
  (0, { st with downstream := st.downstream ++ [f] })

/-- request_frame (buffersrc.c:499-513): empty queue returns EOF or EAGAIN
(counting the failed request); otherwise the head frame is dequeued and
delivered downstream. -/
def request_frame (st : State) : Int × State :=
  match st.ctx.fifo with
  | [] =>
    if st.ctx.eof then
      (AVERROR_EOF, st)
    else
      (AVERROR_EAGAIN,
       { st with ctx := { st.ctx with nb_failed_requests := st.ctx.nb_failed_requests + 1 } })
  | f :: rest =>
    ff_filter_frame { st with ctx := { st.ctx with fifo := rest }, live := st.live - 1 } f

/-- The format-consistency step of av_buffersrc_add_frame_internal
(buffersrc.c:129-144): skipped under NO_CHECK_FORMAT; a video parameter
change only logs; an audio parameter change logs and rejects; an output
of any other media type rejects. -/
def checkStep (st : State) (f : FrameProps) (flags : Flags) : Except (Int × State) State :=
  if flags.no_check_format then .ok st
  else
    match st.media with
    | .video =>
      if st.ctx.w ≠ f.width ∨ st.ctx.h ≠ f.height ∨ st.ctx.pix_fmt ≠ f.format then
        .ok { st with log := st.log ++ [(.info, .videoParamChange)] }
      else .ok st
    | .audio =>
      if st.ctx.sample_fmt ≠ f.format ∨ st.ctx.sample_rate ≠ f.sample_rate ∨
          st.ctx.channel_layout ≠ f.channel_layout then
        .error (AVERROR_EINVAL, { st with log := st.log ++ [(.error, .audioParamChange)] })
      else .ok st
    | .other => .error (AVERROR_EINVAL, st)

/-- av_buffersrc_add_frame_internal (buffersrc.c:116-166).  Returns the
error code, the new state, and the caller's frame handle after the call
(`none` means the handle was moved from / was absent). -/
def av_buffersrc_add_frame_internal (st : State) (frame : Option FrameProps)
    (flags : Flags) (o : AllocOracle) : Int × State × Option FrameProps :=
  match frame with
  | none => (0, { st with ctx := { st.ctx with eof := true } }, none)
  | some f =>
    if st.ctx.eof then
      (AVERROR_EINVAL, st, some f)
    else
      match checkStep st f flags with
      | .error (e, st1) => (e, st1, some f)
      | .ok st1 =>
        if ¬ o.fifo_has_space = true ∧ o.fifo_realloc_ret < 0 then
          (o.fifo_realloc_ret, st1, some f)
        else if ¬ o.frame_alloc_ok = true then
          (AVERROR_ENOMEM, st1, some f)
        else
          let st2 := { st1 with live := st1.live + 1 }
          if o.fifo_write_ret < 0 then
            (o.fifo_write_ret, { st2 with live := st2.live - 1 }, some f)
          else
            let st3 := { st2 with ctx := { st2.ctx with fifo := st2.ctx.fifo ++ [f] } }
            if flags.push then
              let p := request_frame st3
              if p.1 < 0 then (p.1, p.2, none) else (0, p.2, none)
            else (0, st3, none)

/-- av_buffersrc_add_frame_flags (buffersrc.c:92-114): layout/channel-count
consistency check, then either a direct internal add or, with KEEP_REF,
an add of a reference clone with the clone wrapper freed before return. -/
def av_buffersrc_add_frame_flags (st : State) (frame : Option FrameProps)
    (flags : Flags) (o : AllocOracle) : Int × State × Option FrameProps :=
  match frame with
  | none => av_buffersrc_add_frame_internal st none flags o
  | some f =>
    if f.channel_layout ≠ 0 ∧ (nbChannels f.channel_layout : Int) ≠ f.channels then
      (AVERROR_EINVAL, { st with log := st.log ++ [(.error, .layoutChannelsMismatch)] }, some f)
    else if ¬ flags.keep_ref then
      av_buffersrc_add_frame_internal st (some f) flags o
    else if ¬ o.copy_alloc_ok then
      (AVERROR_ENOMEM, st, some f)
    else
      let st1 := { st with live := st.live + 1 }
      if o.frame_ref_ret < 0 then
        (o.frame_ref_ret, { st1 with live := st1.live - 1 }, some f)
      else
        let p := av_buffersrc_add_frame_internal st1 (some f) flags o
        (p.1, { p.2.1 with live := p.2.1.live - 1 }, some f)

/-- av_buffersrc_write_frame (buffersrc.c:78-82). -/
def av_buffersrc_write_frame (st : State) (frame : Option FrameProps) (o : AllocOracle) :
    Int × State × Option FrameProps :=
  av_buffersrc_add_frame_flags st frame ⟨true, false, false⟩ o

/-- av_buffersrc_add_frame (buffersrc.c:84-87). -/
def av_buffersrc_add_frame (st : State) (frame : Option FrameProps) (o : AllocOracle) :
    Int × State × Option FrameProps :=
  av_buffersrc_add_frame_flags st frame ⟨false, false, false⟩ o

/-- av_buffersrc_get_nb_failed_requests (buffersrc.c:348-351). -/
def av_buffersrc_get_nb_failed_requests (st : State) : Nat :=
  st.ctx.nb_failed_requests

/-- poll_frame (buffersrc.c:515-522). -/
def poll_frame (st : State) : Int :=
  if st.ctx.fifo.length = 0 ∧ st.ctx.eof then AVERROR_EOF
  else (st.ctx.fifo.length : Int)

/-- Iterate request_frame n times, collecting the return codes. -/
def pullN : Nat → State → List Int × State
  | 0, st => ([], st)
  | n + 1, st =>
    let p := request_frame st
    let q := pullN n p.2
    (p.1 :: q.1, q.2)

/-- Submit a list of frames one by one through the internal add, stopping
at the first failure; the Bool records whether every submit returned 0. -/
def submitSeq (flags : Flags) (o : AllocOracle) : State → List FrameProps → State × Bool
  | st, [] => (st, true)
  | st, f :: fs =>
    let p := av_buffersrc_add_frame_internal st (some f) flags o
    if p.1 = 0 then submitSeq flags o p.2.1 fs else (p.2.1, false)

/-! ### Initialization (init_audio, buffersrc.c:365-430)

String parsing is done by libavutil helpers (av_set_options_string,
av_get_sample_fmt, av_get_channel_layout); their results enter the model
as the fields of `AudioInitArgs`.  The reconciliation logic itself is the
source's. -/

/-- Parsed option values reaching init_audio: the sample format looked up
from sample_fmt_str (`AV_SAMPLE_FMT_NONE` on failure), the explicit
channels option (0 when absent), whether channel_layout_str was given and
the layout value av_get_channel_layout returned for it (0 on failure),
the sample rate and the time_base option. -/
structure AudioInitArgs where
  sample_fmt : Int
  channels : Int
  layout_given : Bool
  channel_layout : Nat
  sample_rate : Int
  time_base_num : Int
  time_base_den : Int
deriving DecidableEq, Repr

/-- The context fields init_audio leaves behind. -/
structure AudioConf where
  sample_fmt : Int
  sample_rate : Int
  channels : Int
  channel_layout : Nat
  time_base_num : Int
  time_base_den : Int
  warning_limit : Nat
deriving DecidableEq, Repr

/-- Tail of a successful init_audio: default the time base to
1/sample_rate when its numerator is 0, set the warning limit. -/
def init_audio_finish (c : AudioConf) : Int × AudioConf :=
  let c1 :=
    if c.time_base_num = 0 then { c with time_base_num := 1, time_base_den := c.sample_rate }
    else c
  (0, { c1 with warning_limit := 100 })

/-- init_audio (buffersrc.c:365-430): requires a valid sample format;
reconciles channels with channel_layout (deriving the count from the
layout, rejecting a disagreement); rejects when neither is given. -/
def init_audio (a : AudioInitArgs) (opts_ret : Int) (fifo_alloc_ok : Bool) : Int × AudioConf :=
  let c0 : AudioConf :=
    ⟨AV_SAMPLE_FMT_NONE, a.sample_rate, a.channels, 0, a.time_base_num, a.time_base_den, 0⟩
  if opts_ret < 0 then (opts_ret, c0)
  else
    let c1 := { c0 with sample_fmt := a.sample_fmt }
    if a.sample_fmt = AV_SAMPLE_FMT_NONE then (AVERROR_EINVAL, c1)
    else if a.layout_given then
      if a.channel_layout = 0 then (AVERROR_EINVAL, c1)
      else
        let c2 := { c1 with channel_layout := a.channel_layout }
        if a.channels ≠ 0 ∧ (nbChannels a.channel_layout : Int) ≠ a.channels then
          (AVERROR_EINVAL, c2)
        else
          let c3 := { c2 with channels := (nbChannels a.channel_layout : Int) }
          if fifo_alloc_ok then init_audio_finish c3 else (AVERROR_ENOMEM, c3)
    else if a.channels = 0 then (AVERROR_EINVAL, c1)
    else if fifo_alloc_ok then init_audio_finish c1 else (AVERROR_ENOMEM, c1)

/-! ### Initialization (init_video, buffersrc.c:295-346) -/

/-- Index of the first occurrence of a character (strchr). -/
def strchrIdx : List Char → Char → Option Nat
  | [], _ => none
  | c :: l, t => if c = t then some 0 else (strchrIdx l t).map (· + 1)

/-- The lookahead of buffersrc.c:308-310: key=value form is chosen when
strchr finds a '=' and either no ':' exists or the '=' stands before it. -/
def init_video_choose_kv (l : List Char) : Bool :=
  match strchrIdx l '=', strchrIdx l ':' with
  | some _, none => true
  | some e, some c => decide (e < c)
  | none, _ => false

/-- The context fields init_video leaves behind. -/
structure VideoConf where
  w : Int
  h : Int
  pix_fmt : Int
  time_base_num : Int
  time_base_den : Int
  pixel_aspect_num : Int
  pixel_aspect_den : Int
  warning_limit : Nat
deriving DecidableEq, Repr

/-- AV_PIX_FMT_NB: count of the external pixel-format enum (libavutil);
its exact value is irrelevant to the claims over this file. -/
def AV_PIX_FMT_NB : Int := 355

/-- Results of the external parsing calls on the init_video paths:
av_set_options_string's return and the configuration it stores (kv form),
sscanf's field count and fields (positional form), av_get_pix_fmt's
lookup of the pixel-format name, and strtol's fallback parse. -/
structure VideoInitOracle where
  kv_ret : Int
  kv_conf : VideoConf
  scan_n : Int
  scan_w : Int
  scan_h : Int
  scan_tb_num : Int
  scan_tb_den : Int
  scan_par_num : Int
  scan_par_den : Int
  pix_fmt_name : Int
  strtol_val : Int
  strtol_tail_empty : Bool
  fifo_alloc_ok : Bool
deriving DecidableEq, Repr

/-- Key=value branch of init_video (buffersrc.c:311-314 and the shared
tail): propagate av_set_options_string failures, then allocate the fifo
and set the warning limit. -/
def init_video_kv (o : VideoInitOracle) : Int × VideoConf :=
  if o.kv_ret < 0 then (o.kv_ret, o.kv_conf)
  else if ¬ o.fifo_alloc_ok = true then (AVERROR_ENOMEM, o.kv_conf)
  else (0, { o.kv_conf with warning_limit := 100 })

/-- Positional branch of init_video (buffersrc.c:316-331): exactly seven
sscanf fields are required; the pixel format string is resolved by name,
falling back to an in-range decimal index. -/
def init_video_positional (o : VideoInitOracle) : Int × VideoConf :=
  let base : VideoConf :=
    ⟨o.scan_w, o.scan_h, 0, o.scan_tb_num, o.scan_tb_den, o.scan_par_num, o.scan_par_den, 0⟩
  if o.scan_n ≠ 7 then (AVERROR_EINVAL, base)
  else
    let pf : Option Int :=
      if o.pix_fmt_name ≠ AV_PIX_FMT_NONE then some o.pix_fmt_name
      else if ¬ o.strtol_tail_empty = true ∨ o.strtol_val < 0 ∨ AV_PIX_FMT_NB ≤ o.strtol_val then
        none
      else some o.strtol_val
    match pf with
    | none => (AVERROR_EINVAL, base)
    | some p =>
      if ¬ o.fifo_alloc_ok = true then (AVERROR_ENOMEM, { base with pix_fmt := p })
      else (0, { base with pix_fmt := p, warning_limit := 100 })

/-- init_video (buffersrc.c:295-346): arguments are required; form chosen
by the strchr lookahead. -/
def init_video (args : Option (List Char)) (o : VideoInitOracle) : Int × VideoConf :=
  match args with
  | none => (AVERROR_EINVAL, ⟨0, 0, 0, 0, 0, 0, 0, 0⟩)
  | some l => if init_video_choose_kv l then init_video_kv o else init_video_positional o

/-- The spec's wording of the lookahead: a '=' appears at some position
with no ':' strictly before it (this covers both "before the first ':'"
and "no ':' is present"). -/
def eqBeforeFirstColon (l : List Char) : Prop :=
  ∃ i, l.get? i = some '=' ∧ ∀ j, j < i → l.get? j ≠ some ':'

/-! ### Concrete sample inputs used by witnesses and counterexamples -/

/-- An audio frame: s16-like format 1, 48 kHz, stereo layout 0x3. -/
def frameA : FrameProps := ⟨0, 0, 1, 48000, 3, 2⟩

/-- A second audio frame distinguishable from frameA. -/
def frameB : FrameProps := ⟨7, 0, 1, 48000, 3, 2⟩

/-- A 320x240 video frame with pixel format 0. -/
def frameV : FrameProps := ⟨320, 240, 0, 0, 0, 0⟩

/-- A 640x480 video frame: geometry differs from ctxV's parameter set. -/
def frameW : FrameProps := ⟨640, 480, 0, 0, 0, 0⟩

/-- An audio frame at 44.1 kHz: sample rate differs from ctxA's parameter
set. -/
def frameM : FrameProps := ⟨0, 0, 1, 44100, 3, 2⟩

/-- An audio context configured as format 1, 48 kHz, stereo. -/
def ctxA : BufferSourceContext := ⟨[], 0, 100, 0, 0, 0, 48000, 1, 2, 3, false⟩

/-- A video context configured as 320x240, pixel format 0. -/
def ctxV : BufferSourceContext := ⟨[], 0, 100, 320, 240, 0, 0, 0, 0, 0, false⟩

/-- A fresh audio stage. -/
def stA : State := ⟨ctxA, .audio, [], [], 0⟩

/-- A fresh video stage. -/
def stV : State := ⟨ctxV, .video, [], [], 0⟩

/-- A video stage with one queued frame, about to receive EOF. -/
def stE : State := ⟨{ ctxV with fifo := [frameV] }, .video, [], [], 1⟩

/-- No flag bits set. -/
def flags0 : Flags := ⟨false, false, false⟩

/-- KEEP_REF only. -/
def flagsKR : Flags := ⟨true, false, false⟩

/-- NO_CHECK_FORMAT only. -/
def flagsNC : Flags := ⟨false, true, false⟩

/-- Every external allocation succeeds. -/
def oGood : AllocOracle := ⟨true, 0, true, 0, true, 0⟩

/-- The fifo write fails with ENOMEM; everything before it succeeds. -/
def oWriteFail : AllocOracle := ⟨true, 0, true, AVERROR_ENOMEM, true, 0⟩

/-! ## Lemmas about the pull operation -/

lemma request_frame_cons (st : State) (f : FrameProps) (rest : List FrameProps)
    (h : st.ctx.fifo = f :: rest) :
    request_frame st =
      (0, { st with ctx := { st.ctx with fifo := rest },
                    downstream := st.downstream ++ [f],
                    live := st.live - 1 }) := by
  simp [request_frame, ff_filter_frame, h]

lemma request_frame_nil_eof (st : State) (h : st.ctx.fifo = []) (he : st.ctx.eof = true) :
    request_frame st = (AVERROR_EOF, st) := by
  simp [request_frame, h, he]

lemma request_frame_nil_again (st : State) (h : st.ctx.fifo = []) (he : st.ctx.eof = false) :
    request_frame st =
      (AVERROR_EAGAIN,
       { st with ctx := { st.ctx with nb_failed_requests := st.ctx.nb_failed_requests + 1 } }) := by
  simp [request_frame, h, he]

lemma request_frame_eof_eq (st : State) : (request_frame st).2.ctx.eof = st.ctx.eof := by
  rcases h : st.ctx.fifo with _ | ⟨f, rest⟩
  · cases he : st.ctx.eof
    · simp [request_frame_nil_again st h he, he]
    · simp [request_frame_nil_eof st h he, he]
  · simp [request_frame_cons st f rest h]

lemma request_frame_live_delta (st : State) :
    (request_frame st).2.live + (st.ctx.fifo.length : Int) =
      st.live + ((request_frame st).2.ctx.fifo.length : Int) := by
  rcases h : st.ctx.fifo with _ | ⟨f, rest⟩
  · cases he : st.ctx.eof
    · simp [request_frame_nil_again st h he, h]
    · simp [request_frame_nil_eof st h he, h]
  · simp [request_frame_cons st f rest h, h]

lemma pullN_drain (fs : List FrameProps) : ∀ st : State, st.ctx.fifo = fs →
    (pullN fs.length st).1 = List.replicate fs.length 0 ∧
    (pullN fs.length st).2.ctx.fifo = [] ∧
    (pullN fs.length st).2.downstream = st.downstream ++ fs ∧
    (pullN fs.length st).2.ctx.eof = st.ctx.eof ∧
    (pullN fs.length st).2.ctx.nb_failed_requests = st.ctx.nb_failed_requests := by
  induction fs with
  | nil => intro st h; simp [pullN, h]
  | cons f rest ih =>
    intro st h
    have hreq := request_frame_cons st f rest h
    have ih1 := ih { st with ctx := { st.ctx with fifo := rest },
                             downstream := st.downstream ++ [f],
                             live := st.live - 1 } rfl
    simp only [List.length_cons, pullN, hreq] at ih1 ⊢
    simp only [List.replicate_succ]
    refine ⟨by simp [ih1.1], by simp [ih1.2.1], ?_, by simp [ih1.2.2.2.1], by simp [ih1.2.2.2.2]⟩
    have h3 := ih1.2.2.1
    simp at h3
    simp [h3]

lemma pullN_eof_forever (m : Nat) : ∀ st : State, st.ctx.fifo = [] → st.ctx.eof = true →
    pullN m st = (List.replicate m AVERROR_EOF, st) := by
  induction m with
  | zero => intro st h he; simp [pullN]
  | succ n ih =>
    intro st h he
    have hreq := request_frame_nil_eof st h he
    simp [pullN, hreq, ih st h he, List.replicate_succ]

/-! ## Lemmas about the submit operation -/

lemma checkStep_ok_fields (st st1 : State) (f : FrameProps) (flags : Flags)
    (hc : checkStep st f flags = .ok st1) :
    st1.ctx = st.ctx ∧ st1.downstream = st.downstream ∧ st1.live = st.live ∧
      st1.media = st.media := by
  unfold checkStep at hc
  split at hc
  · cases hc; exact ⟨rfl, rfl, rfl, rfl⟩
  · split at hc
    · split at hc <;> (cases hc; exact ⟨rfl, rfl, rfl, rfl⟩)
    · split at hc
      · cases hc
      · cases hc; exact ⟨rfl, rfl, rfl, rfl⟩
    · cases hc

lemma checkStep_error_fields (st st1 : State) (f : FrameProps) (flags : Flags) (e : Int)
    (hc : checkStep st f flags = .error (e, st1)) :
    e = AVERROR_EINVAL ∧ st1.ctx = st.ctx ∧ st1.downstream = st.downstream ∧
      st1.live = st.live ∧ st1.media = st.media := by
  unfold checkStep at hc
  split at hc
  · cases hc
  · split at hc
    · split at hc <;> cases hc
    · split at hc
      · cases hc; exact ⟨rfl, rfl, rfl, rfl, rfl⟩
      · cases hc
    · cases hc; exact ⟨rfl, rfl, rfl, rfl, rfl⟩

lemma internal_none_eq (st : State) (flags : Flags) (o : AllocOracle) :
    av_buffersrc_add_frame_internal st none flags o =
      (0, { st with ctx := { st.ctx with eof := true } }, none) := by
  simp [av_buffersrc_add_frame_internal]

lemma internal_some_eof (st : State) (f : FrameProps) (flags : Flags) (o : AllocOracle)
    (he : st.ctx.eof = true) :
    av_buffersrc_add_frame_internal st (some f) flags o = (AVERROR_EINVAL, st, some f) := by
  simp [av_buffersrc_add_frame_internal, he]

lemma internal_some_check_error (st st1 : State) (f : FrameProps) (flags : Flags)
    (o : AllocOracle) (e : Int) (he : st.ctx.eof = false)
    (hc : checkStep st f flags = .error (e, st1)) :
    av_buffersrc_add_frame_internal st (some f) flags o = (e, st1, some f) := by
  simp [av_buffersrc_add_frame_internal, he, hc]

lemma internal_some_realloc_fail (st st1 : State) (f : FrameProps) (flags : Flags)
    (o : AllocOracle) (he : st.ctx.eof = false)
    (hc : checkStep st f flags = .ok st1)
    (hs : o.fifo_has_space = false) (hr : o.fifo_realloc_ret < 0) :
    av_buffersrc_add_frame_internal st (some f) flags o = (o.fifo_realloc_ret, st1, some f) := by
  simp [av_buffersrc_add_frame_internal, he, hc, hs, hr]

lemma internal_some_alloc_fail (st st1 : State) (f : FrameProps) (flags : Flags)
    (o : AllocOracle) (he : st.ctx.eof = false)
    (hc : checkStep st f flags = .ok st1)
    (hs : o.fifo_has_space = true ∨ 0 ≤ o.fifo_realloc_ret)
    (ha : o.frame_alloc_ok = false) :
    av_buffersrc_add_frame_internal st (some f) flags o = (AVERROR_ENOMEM, st1, some f) := by
  rcases hs with h3 | h3
  · simp [av_buffersrc_add_frame_internal, he, hc, h3, ha]
  · simp [av_buffersrc_add_frame_internal, he, hc, not_lt.mpr h3, ha]

lemma internal_some_write_fail (st st1 : State) (f : FrameProps) (flags : Flags)
    (o : AllocOracle) (he : st.ctx.eof = false)
    (hc : checkStep st f flags = .ok st1)
    (hs : o.fifo_has_space = true ∨ 0 ≤ o.fifo_realloc_ret)
    (ha : o.frame_alloc_ok = true) (hw : o.fifo_write_ret < 0) :
    av_buffersrc_add_frame_internal st (some f) flags o = (o.fifo_write_ret, st1, some f) := by
  rcases hs with h3 | h3
  · simp [av_buffersrc_add_frame_internal, he, hc, h3, ha, hw]
  · simp [av_buffersrc_add_frame_internal, he, hc, not_lt.mpr h3, ha, hw]

lemma internal_some_ok (st st1 : State) (f : FrameProps) (flags : Flags)
    (o : AllocOracle) (he : st.ctx.eof = false)
    (hc : checkStep st f flags = .ok st1)
    (hs : o.fifo_has_space = true ∨ 0 ≤ o.fifo_realloc_ret)
    (ha : o.frame_alloc_ok = true) (hw : ¬ o.fifo_write_ret < 0)
    (hp : flags.push = false) :
    av_buffersrc_add_frame_internal st (some f) flags o =
      (0, { st1 with ctx := { st1.ctx with fifo := st1.ctx.fifo ++ [f] },
                     live := st1.live + 1 }, none) := by
  rcases hs with h3 | h3
  · simp [av_buffersrc_add_frame_internal, he, hc, h3, ha, hw, hp]
  · simp [av_buffersrc_add_frame_internal, he, hc, not_lt.mpr h3, ha, hw, hp]

lemma internal_some_ok_push (st st1 : State) (f : FrameProps) (flags : Flags)
    (o : AllocOracle) (he : st.ctx.eof = false)
    (hc : checkStep st f flags = .ok st1)
    (hs : o.fifo_has_space = true ∨ 0 ≤ o.fifo_realloc_ret)
    (ha : o.frame_alloc_ok = true) (hw : ¬ o.fifo_write_ret < 0)
    (hp : flags.push = true) :
    av_buffersrc_add_frame_internal st (some f) flags o =
      (let p := request_frame { st1 with ctx := { st1.ctx with fifo := st1.ctx.fifo ++ [f] },
                                         live := st1.live + 1 }
       if p.1 < 0 then (p.1, p.2, none) else (0, p.2, none)) := by
  rcases hs with h3 | h3
  · simp [av_buffersrc_add_frame_internal, he, hc, h3, ha, hw, hp]
  · simp [av_buffersrc_add_frame_internal, he, hc, not_lt.mpr h3, ha, hw, hp]

lemma internal_ok_fields (st : State) (f : FrameProps) (flags : Flags) (o : AllocOracle)
    (hp : flags.push = false)
    (h : (av_buffersrc_add_frame_internal st (some f) flags o).1 = 0) :
    (av_buffersrc_add_frame_internal st (some f) flags o).2.1.ctx.fifo = st.ctx.fifo ++ [f] ∧
    (av_buffersrc_add_frame_internal st (some f) flags o).2.1.downstream = st.downstream ∧
    (av_buffersrc_add_frame_internal st (some f) flags o).2.1.ctx.eof = st.ctx.eof ∧
    (av_buffersrc_add_frame_internal st (some f) flags o).2.1.ctx.nb_failed_requests =
      st.ctx.nb_failed_requests := by
  cases he : st.ctx.eof
  · rcases hc : checkStep st f flags with ⟨e, st1⟩ | st1
    · rw [internal_some_check_error st st1 f flags o e he hc] at h
      have hfields := checkStep_error_fields st st1 f flags e hc
      rw [hfields.1] at h
      norm_num [AVERROR_EINVAL] at h
    · by_cases hsp : o.fifo_has_space = true ∨ 0 ≤ o.fifo_realloc_ret
      · by_cases ha : o.frame_alloc_ok = true
        · by_cases hw : o.fifo_write_ret < 0
          · rw [internal_some_write_fail st st1 f flags o he hc hsp ha hw] at h
            simp at h
            omega
          · rw [internal_some_ok st st1 f flags o he hc hsp ha hw hp]
            have hf := checkStep_ok_fields st st1 f flags hc
            simp [hf.1, hf.2.1, he]
        · have ha2 : o.frame_alloc_ok = false := by
            cases hb : o.frame_alloc_ok
            · rfl
            · exact absurd hb ha
          rw [internal_some_alloc_fail st st1 f flags o he hc hsp ha2] at h
          norm_num [AVERROR_ENOMEM] at h
      · push_neg at hsp
        have hs1 : o.fifo_has_space = false := by
          cases hb : o.fifo_has_space
          · rfl
          · exact absurd hb hsp.1
        rw [internal_some_realloc_fail st st1 f flags o he hc hs1 hsp.2] at h
        simp at h
        omega
  · rw [internal_some_eof st f flags o he] at h
    norm_num [AVERROR_EINVAL] at h

lemma submitSeq_ok (flags : Flags) (o : AllocOracle) (hp : flags.push = false) :
    ∀ (fs : List FrameProps) (st : State), (submitSeq flags o st fs).2 = true →
    (submitSeq flags o st fs).1.ctx.fifo = st.ctx.fifo ++ fs ∧
    (submitSeq flags o st fs).1.downstream = st.downstream ∧
    (submitSeq flags o st fs).1.ctx.eof = st.ctx.eof ∧
    (submitSeq flags o st fs).1.ctx.nb_failed_requests = st.ctx.nb_failed_requests := by
  intro fs
  induction fs with
  | nil => intro st h; simp [submitSeq]
  | cons f rest ih =>
    intro st h
    simp only [submitSeq] at h ⊢
    by_cases h0 : (av_buffersrc_add_frame_internal st (some f) flags o).1 = 0
    · simp only [h0, if_pos] at h ⊢
      have hone := internal_ok_fields st f flags o hp h0
      have ihx := ih _ h
      exact ⟨by rw [ihx.1, hone.1, List.append_assoc]; rfl,
             by rw [ihx.2.1, hone.2.1],
             by rw [ihx.2.2.1, hone.2.2.1],
             by rw [ihx.2.2.2, hone.2.2.2]⟩
    · simp [h0] at h

lemma internal_live_delta (st : State) (frame : Option FrameProps) (flags : Flags)
    (o : AllocOracle) :
    (av_buffersrc_add_frame_internal st frame flags o).2.1.live + (st.ctx.fifo.length : Int) =
      st.live + ((av_buffersrc_add_frame_internal st frame flags o).2.1.ctx.fifo.length : Int) := by
  match frame with
  | none => rw [internal_none_eq]
  | some f =>
    cases he : st.ctx.eof
    · rcases hc : checkStep st f flags with ⟨e, st1⟩ | st1
      · rw [internal_some_check_error st st1 f flags o e he hc]
        have hf := checkStep_error_fields st st1 f flags e hc
        simp [hf.2.1, hf.2.2.2.1]
      · have hf := checkStep_ok_fields st st1 f flags hc
        by_cases hsp : o.fifo_has_space = true ∨ 0 ≤ o.fifo_realloc_ret
        · by_cases ha : o.frame_alloc_ok = true
          · by_cases hw : o.fifo_write_ret < 0
            · rw [internal_some_write_fail st st1 f flags o he hc hsp ha hw]
              simp [hf.1, hf.2.2.1]
            · cases hpu : flags.push
              · rw [internal_some_ok st st1 f flags o he hc hsp ha hw hpu]
                simp [hf.1, hf.2.2.1]
                omega
              · rw [internal_some_ok_push st st1 f flags o he hc hsp ha hw hpu]
                have hd := request_frame_live_delta
                  { st1 with ctx := { st1.ctx with fifo := st1.ctx.fifo ++ [f] },
                             live := st1.live + 1 }
                generalize hq :
                  request_frame { st1 with ctx := { st1.ctx with fifo := st1.ctx.fifo ++ [f] },
                                           live := st1.live + 1 } = q at hd ⊢
                simp at hd
                rw [hf.1, hf.2.2.1] at hd
                by_cases hplt : q.1 < 0 <;> simp [hplt] <;> omega
          · have ha2 : o.frame_alloc_ok = false := by
              cases hb : o.frame_alloc_ok
              · rfl
              · exact absurd hb ha
            rw [internal_some_alloc_fail st st1 f flags o he hc hsp ha2]
            simp [hf.1, hf.2.2.1]
        · push_neg at hsp
          have hs1 : o.fifo_has_space = false := by
            cases hb : o.fifo_has_space
            · rfl
            · exact absurd hb hsp.1
          rw [internal_some_realloc_fail st st1 f flags o he hc hs1 hsp.2]
          simp [hf.1, hf.2.2.1]
    · rw [internal_some_eof st f flags o he]

lemma internal_eof_mono (st : State) (frame : Option FrameProps) (flags : Flags)
    (o : AllocOracle) (he : st.ctx.eof = true) :
    (av_buffersrc_add_frame_internal st frame flags o).2.1.ctx.eof = true := by
  match frame with
  | none => rw [internal_none_eq]
  | some f => rw [internal_some_eof st f flags o he]; exact he

lemma wrapper_eof_mono (st : State) (frame : Option FrameProps) (flags : Flags)
    (o : AllocOracle) (he : st.ctx.eof = true) :
    (av_buffersrc_add_frame_flags st frame flags o).2.1.ctx.eof = true := by
  match frame with
  | none =>
    show (av_buffersrc_add_frame_internal st none flags o).2.1.ctx.eof = true
    exact internal_eof_mono st none flags o he
  | some f =>
    simp only [av_buffersrc_add_frame_flags]
    split_ifs with h1 h2 h3 h4 <;>
      first
      | exact he
      | exact internal_eof_mono st (some f) flags o he
      | exact internal_eof_mono { st with live := st.live + 1 } (some f) flags o he

lemma wrapper_keep_ref_frame (st : State) (f : FrameProps) (flags : Flags) (o : AllocOracle)
    (hk : flags.keep_ref = true) :
    (av_buffersrc_add_frame_flags st (some f) flags o).2.2 = some f := by
  simp only [av_buffersrc_add_frame_flags]
  split_ifs <;> rfl

lemma wrapper_live_delta (st : State) (f : FrameProps) (flags : Flags) (o : AllocOracle)
    (hk : flags.keep_ref = true) :
    (av_buffersrc_add_frame_flags st (some f) flags o).2.1.live + (st.ctx.fifo.length : Int) =
      st.live + ((av_buffersrc_add_frame_flags st (some f) flags o).2.1.ctx.fifo.length : Int) := by
  by_cases h1 : f.channel_layout ≠ 0 ∧ (nbChannels f.channel_layout : Int) ≠ f.channels
  · simp [av_buffersrc_add_frame_flags, h1]
  · by_cases h2 : o.copy_alloc_ok = true
    · by_cases h3 : o.frame_ref_ret < 0
      · simp [av_buffersrc_add_frame_flags, h1, hk, h2, h3]
      · simp only [av_buffersrc_add_frame_flags, h1, hk, h2, h3, if_neg, if_pos,
          not_false_iff, if_false, if_true]
        have hd := internal_live_delta { st with live := st.live + 1 } (some f) flags o
        generalize hq :
          av_buffersrc_add_frame_internal { st with live := st.live + 1 } (some f) flags o =
            q at hd ⊢
        simp at hd ⊢
        omega
    · simp [av_buffersrc_add_frame_flags, h1, hk, h2]

lemma checkStep_passes (st : State) (f : FrameProps) (flags : Flags)
    (hchk : flags.no_check_format = true ∨ st.media = .video ∨
      (st.media = .audio ∧ st.ctx.sample_fmt = f.format ∧ st.ctx.sample_rate = f.sample_rate ∧
        st.ctx.channel_layout = f.channel_layout)) :
    ∃ st1, checkStep st f flags = .ok st1 := by
  by_cases hn : flags.no_check_format = true
  · exact ⟨st, by simp [checkStep, hn]⟩
  · have hb : flags.no_check_format = false := by
      cases hbb : flags.no_check_format
      · rfl
      · exact absurd hbb hn
    rcases hchk with h | h | ⟨h, h1, h2, h3⟩
    · exact absurd h hn
    · unfold checkStep
      simp only [hb, Bool.false_eq_true, if_false, h]
      split_ifs <;> exact ⟨_, rfl⟩
    · exact ⟨st, by simp [checkStep, hb, h, h1, h2, h3]⟩

/-! ## The claims -/

/-- Claim C1: for every sequence of n successful frame submissions
f1,...,fn into the stage followed by n successful pulls, the consumer
receives exactly f1,...,fn in the order of submission. -/
theorem C1_order_preservation (fs : List FrameProps) (st : State) (flags : Flags)
    (o : AllocOracle) (hfifo : st.ctx.fifo = []) (hpush : flags.push = false)
    (hok : (submitSeq flags o st fs).2 = true) :
    (pullN fs.length (submitSeq flags o st fs).1).1 = List.replicate fs.length 0 ∧
    (pullN fs.length (submitSeq flags o st fs).1).2.downstream = st.downstream ++ fs := by
  have hsub := submitSeq_ok flags o hpush fs st hok
  have hfifo2 : (submitSeq flags o st fs).1.ctx.fifo = fs := by
    rw [hsub.1, hfifo]
    simp
  have hd := pullN_drain fs (submitSeq flags o st fs).1 hfifo2
  exact ⟨hd.1, by rw [hd.2.2.1, hsub.2.1]⟩

/-- Witness for C1 at a two-frame run on a fresh audio stage. -/
theorem C1_order_preservation_witness :
    (stA.ctx.fifo = [] ∧ flags0.push = false ∧
      (submitSeq flags0 oGood stA [frameA, frameB]).2 = true) ∧
    (pullN [frameA, frameB].length (submitSeq flags0 oGood stA [frameA, frameB]).1).1 =
      List.replicate [frameA, frameB].length 0 ∧
    (pullN [frameA, frameB].length (submitSeq flags0 oGood stA [frameA, frameB]).1).2.downstream =
      stA.downstream ++ [frameA, frameB] :=
  ⟨⟨by decide, by decide, by decide⟩,
   C1_order_preservation [frameA, frameB] stA flags0 oGood (by decide) (by decide) (by decide)⟩

/-- Claim C2: one pull is a three-way case split: a non-empty queue pops
the head, delivers it downstream and returns success with the counter
unchanged; an empty queue with EOF set returns end-of-stream; otherwise
the failed-request counter is incremented by exactly one and EAGAIN is
returned; consequently the counter never decreases, and changes by
exactly one precisely on the pulls that return EAGAIN. -/
theorem C2_pull_three_way (st : State) :
    (∀ f rest, st.ctx.fifo = f :: rest →
      (request_frame st).1 = 0 ∧
      (request_frame st).2.ctx.fifo = rest ∧
      (request_frame st).2.downstream = st.downstream ++ [f] ∧
      (request_frame st).2.ctx.nb_failed_requests = st.ctx.nb_failed_requests) ∧
    (st.ctx.fifo = [] → st.ctx.eof = true →
      (request_frame st).1 = AVERROR_EOF ∧ (request_frame st).2 = st) ∧
    (st.ctx.fifo = [] → st.ctx.eof = false →
      (request_frame st).1 = AVERROR_EAGAIN ∧
      (request_frame st).2.ctx.nb_failed_requests = st.ctx.nb_failed_requests + 1 ∧
      (request_frame st).2.ctx.fifo = [] ∧
      (request_frame st).2.downstream = st.downstream) ∧
    st.ctx.nb_failed_requests ≤ (request_frame st).2.ctx.nb_failed_requests ∧
    ((request_frame st).1 = AVERROR_EAGAIN →
      (request_frame st).2.ctx.nb_failed_requests = st.ctx.nb_failed_requests + 1) ∧
    ((request_frame st).1 ≠ AVERROR_EAGAIN →
      (request_frame st).2.ctx.nb_failed_requests = st.ctx.nb_failed_requests) := by
  rcases h : st.ctx.fifo with _ | ⟨f, rest⟩
  · cases he : st.ctx.eof
    · have hr := request_frame_nil_again st h he
      simp [hr, h, he, AVERROR_EAGAIN]
    · have hr := request_frame_nil_eof st h he
      simp [hr, h, he, AVERROR_EAGAIN, AVERROR_EOF]
  · have hr := request_frame_cons st f rest h
    simp [hr, h, AVERROR_EAGAIN]

/-- Claim C3: a null submission sets the EOF flag and returns success;
any later non-null internal submission fails with EINVAL and leaves the
state untouched; and no operation of the stage (internal add, wrapper
add, pull) ever resets the flag. -/
theorem C3_eof_latch :
    (∀ (st : State) (flags : Flags) (o : AllocOracle),
      av_buffersrc_add_frame_internal st none flags o =
        (0, { st with ctx := { st.ctx with eof := true } }, none)) ∧
    (∀ (st : State) (f : FrameProps) (flags : Flags) (o : AllocOracle), st.ctx.eof = true →
      av_buffersrc_add_frame_internal st (some f) flags o = (AVERROR_EINVAL, st, some f)) ∧
    (∀ (st : State) (frame : Option FrameProps) (flags : Flags) (o : AllocOracle),
      st.ctx.eof = true → (av_buffersrc_add_frame_internal st frame flags o).2.1.ctx.eof = true) ∧
    (∀ (st : State) (frame : Option FrameProps) (flags : Flags) (o : AllocOracle),
      st.ctx.eof = true → (av_buffersrc_add_frame_flags st frame flags o).2.1.ctx.eof = true) ∧
    (∀ st : State, st.ctx.eof = true → (request_frame st).2.ctx.eof = true) :=
  ⟨internal_none_eq, internal_some_eof, internal_eof_mono, wrapper_eof_mono,
   fun st he => (request_frame_eof_eq st).trans he⟩

/-- Claim C4: on an audio stage, a frame whose sample format, sample rate
or channel layout differs from the parameter set is rejected with EINVAL
(without NO_CHECK_FORMAT) and nothing is enqueued or otherwise changed. -/
theorem C4_audio_strict (st : State) (f : FrameProps) (flags : Flags) (o : AllocOracle)
    (hm : st.media = .audio) (hn : flags.no_check_format = false)
    (hmm : st.ctx.sample_fmt ≠ f.format ∨ st.ctx.sample_rate ≠ f.sample_rate ∨
      st.ctx.channel_layout ≠ f.channel_layout) :
    (av_buffersrc_add_frame_internal st (some f) flags o).1 = AVERROR_EINVAL ∧
    (av_buffersrc_add_frame_internal st (some f) flags o).2.1.ctx.fifo = st.ctx.fifo ∧
    (av_buffersrc_add_frame_internal st (some f) flags o).2.1.ctx.eof = st.ctx.eof ∧
    (av_buffersrc_add_frame_internal st (some f) flags o).2.1.ctx.nb_failed_requests =
      st.ctx.nb_failed_requests ∧
    (av_buffersrc_add_frame_internal st (some f) flags o).2.1.downstream = st.downstream ∧
    (av_buffersrc_add_frame_internal st (some f) flags o).2.2 = some f := by
  cases he : st.ctx.eof
  · have hc : checkStep st f flags =
        .error (AVERROR_EINVAL, { st with log := st.log ++ [(.error, .audioParamChange)] }) := by
      unfold checkStep
      rw [hn]
      simp only [Bool.false_eq_true, if_false, hm]
      rw [if_pos hmm]
    rw [internal_some_check_error st _ f flags o AVERROR_EINVAL he hc]
    simp [he]
  · rw [internal_some_eof st f flags o he]
    simp [he]

/-- Witness for C4: a 44.1 kHz frame into the 48 kHz audio stage. -/
theorem C4_audio_strict_witness :
    (stA.media = MediaType.audio ∧ flags0.no_check_format = false ∧
      (stA.ctx.sample_fmt ≠ frameM.format ∨ stA.ctx.sample_rate ≠ frameM.sample_rate ∨
        stA.ctx.channel_layout ≠ frameM.channel_layout)) ∧
    (av_buffersrc_add_frame_internal stA (some frameM) flags0 oGood).1 = AVERROR_EINVAL ∧
    (av_buffersrc_add_frame_internal stA (some frameM) flags0 oGood).2.1.ctx.fifo =
      stA.ctx.fifo ∧
    (av_buffersrc_add_frame_internal stA (some frameM) flags0 oGood).2.1.ctx.eof =
      stA.ctx.eof ∧
    (av_buffersrc_add_frame_internal stA (some frameM) flags0 oGood).2.1.ctx.nb_failed_requests =
      stA.ctx.nb_failed_requests ∧
    (av_buffersrc_add_frame_internal stA (some frameM) flags0 oGood).2.1.downstream =
      stA.downstream ∧
    (av_buffersrc_add_frame_internal stA (some frameM) flags0 oGood).2.2 = some frameM :=
  ⟨⟨by decide, by decide, by decide⟩,
   C4_audio_strict stA frameM flags0 oGood (by decide) (by decide) (by decide)⟩

/-- Claim C5: when the fifo write fails during a submission that reached
it, the move is reversed (the caller keeps the frame), the write error is
returned, and queue, EOF flag, failed-request counter, downstream trace
and allocation ledger are all unchanged. -/
theorem C5_failed_push_restores (st : State) (f : FrameProps) (flags : Flags) (o : AllocOracle)
    (he : st.ctx.eof = false)
    (hchk : flags.no_check_format = true ∨ st.media = .video ∨
      (st.media = .audio ∧ st.ctx.sample_fmt = f.format ∧ st.ctx.sample_rate = f.sample_rate ∧
        st.ctx.channel_layout = f.channel_layout))
    (hs : o.fifo_has_space = true ∨ 0 ≤ o.fifo_realloc_ret)
    (ha : o.frame_alloc_ok = true)
    (hw : o.fifo_write_ret < 0) :
    (av_buffersrc_add_frame_internal st (some f) flags o).1 = o.fifo_write_ret ∧
    (av_buffersrc_add_frame_internal st (some f) flags o).2.1.ctx.fifo = st.ctx.fifo ∧
    (av_buffersrc_add_frame_internal st (some f) flags o).2.1.ctx.eof = st.ctx.eof ∧
    (av_buffersrc_add_frame_internal st (some f) flags o).2.1.ctx.nb_failed_requests =
      st.ctx.nb_failed_requests ∧
    (av_buffersrc_add_frame_internal st (some f) flags o).2.1.downstream = st.downstream ∧
    (av_buffersrc_add_frame_internal st (some f) flags o).2.1.live = st.live ∧
    (av_buffersrc_add_frame_internal st (some f) flags o).2.2 = some f := by
  obtain ⟨st1, hc⟩ := checkStep_passes st f flags hchk
  have hf := checkStep_ok_fields st st1 f flags hc
  rw [internal_some_write_fail st st1 f flags o he hc hs ha hw]
  simp [hf.1, hf.2.1, hf.2.2.1]

/-- Witness for C5: a matching frame whose fifo write fails on the audio
stage. -/
theorem C5_failed_push_restores_witness :
    (stA.ctx.eof = false ∧ oWriteFail.frame_alloc_ok = true ∧ oWriteFail.fifo_write_ret < 0) ∧
    (av_buffersrc_add_frame_internal stA (some frameA) flags0 oWriteFail).1 =
      oWriteFail.fifo_write_ret ∧
    (av_buffersrc_add_frame_internal stA (some frameA) flags0 oWriteFail).2.1.ctx.fifo =
      stA.ctx.fifo ∧
    (av_buffersrc_add_frame_internal stA (some frameA) flags0 oWriteFail).2.1.ctx.eof =
      stA.ctx.eof ∧
    (av_buffersrc_add_frame_internal stA (some frameA) flags0 oWriteFail).2.1.ctx.nb_failed_requests =
      stA.ctx.nb_failed_requests ∧
    (av_buffersrc_add_frame_internal stA (some frameA) flags0 oWriteFail).2.1.downstream =
      stA.downstream ∧
    (av_buffersrc_add_frame_internal stA (some frameA) flags0 oWriteFail).2.1.live = stA.live ∧
    (av_buffersrc_add_frame_internal stA (some frameA) flags0 oWriteFail).2.2 = some frameA :=
  ⟨⟨by decide, by decide, by decide⟩,
   C5_failed_push_restores stA frameA flags0 oWriteFail (by decide)
     (Or.inr (Or.inr ⟨by decide, by decide, by decide, by decide⟩))
     (Or.inl (by decide)) (by decide) (by decide)⟩

/-- Counterexample for C6 as stated: a mismatched video submission
succeeds and enqueues, but the warning budget is NOT decremented — the
source initializes warning_limit to 100 and never touches it again. -/
theorem C6_counterexample :
    (av_buffersrc_add_frame_internal stV (some frameW) flags0 oGood).1 = 0 ∧
    (av_buffersrc_add_frame_internal stV (some frameW) flags0 oGood).2.1.ctx.fifo = [frameW] ∧
    stV.ctx.warning_limit = 100 ∧
    (av_buffersrc_add_frame_internal stV (some frameW) flags0 oGood).2.1.ctx.warning_limit =
      100 ∧
    ¬ (av_buffersrc_add_frame_internal stV (some frameW) flags0 oGood).2.1.ctx.warning_limit =
        stV.ctx.warning_limit - 1 := by
  decide

/-- Claim C6 (amended): a mismatched video submission (without
NO_CHECK_FORMAT) succeeds and enqueues, emitting exactly one
informational diagnostic; the warning budget stays unchanged (it is
initialized to 100 and never decremented by submissions). -/
theorem C6_video_tolerance (st : State) (f : FrameProps) (flags : Flags) (o : AllocOracle)
    (hm : st.media = .video) (hn : flags.no_check_format = false) (he : st.ctx.eof = false)
    (hmm : st.ctx.w ≠ f.width ∨ st.ctx.h ≠ f.height ∨ st.ctx.pix_fmt ≠ f.format)
    (hs : o.fifo_has_space = true ∨ 0 ≤ o.fifo_realloc_ret)
    (ha : o.frame_alloc_ok = true) (hw : ¬ o.fifo_write_ret < 0) (hp : flags.push = false) :
    (av_buffersrc_add_frame_internal st (some f) flags o).1 = 0 ∧
    (av_buffersrc_add_frame_internal st (some f) flags o).2.1.ctx.fifo = st.ctx.fifo ++ [f] ∧
    (av_buffersrc_add_frame_internal st (some f) flags o).2.1.log =
      st.log ++ [(.info, .videoParamChange)] ∧
    (av_buffersrc_add_frame_internal st (some f) flags o).2.1.ctx.warning_limit =
      st.ctx.warning_limit := by
  have hc : checkStep st f flags =
      .ok { st with log := st.log ++ [(.info, .videoParamChange)] } := by
    unfold checkStep
    rw [hn]
    simp only [Bool.false_eq_true, if_false, hm]
    rw [if_pos hmm]
  rw [internal_some_ok st _ f flags o he hc hs ha hw hp]
  simp

/-- Witness for C6 (amended): the 640x480 frame into the 320x240 stage. -/
theorem C6_video_tolerance_witness :
    (stV.media = MediaType.video ∧ flags0.no_check_format = false ∧ stV.ctx.eof = false ∧
      (stV.ctx.w ≠ frameW.width ∨ stV.ctx.h ≠ frameW.height ∨
        stV.ctx.pix_fmt ≠ frameW.format)) ∧
    (av_buffersrc_add_frame_internal stV (some frameW) flags0 oGood).1 = 0 ∧
    (av_buffersrc_add_frame_internal stV (some frameW) flags0 oGood).2.1.ctx.fifo =
      stV.ctx.fifo ++ [frameW] ∧
    (av_buffersrc_add_frame_internal stV (some frameW) flags0 oGood).2.1.log =
      stV.log ++ [(.info, .videoParamChange)] ∧
    (av_buffersrc_add_frame_internal stV (some frameW) flags0 oGood).2.1.ctx.warning_limit =
      stV.ctx.warning_limit :=
  ⟨⟨by decide, by decide, by decide, by decide⟩,
   C6_video_tolerance stV frameW flags0 oGood (by decide) (by decide) (by decide) (by decide)
     (Or.inl (by decide)) (by decide) (by decide) (by decide)⟩

/-- Counterexample for C7 as stated: with one queued frame at EOF time
(k = 1), the k-th (first) subsequent pull delivers that frame with
success — it does not yield end-of-stream. -/
theorem C7_counterexample :
    (av_buffersrc_add_frame_internal stE none flags0 oGood).2.1.ctx.fifo.length = 1 ∧
    (request_frame (av_buffersrc_add_frame_internal stE none flags0 oGood).2.1).1 = 0 ∧
    ¬ (request_frame (av_buffersrc_add_frame_internal stE none flags0 oGood).2.1).1 =
        AVERROR_EOF := by
  decide

/-- Claim C7 (amended): after a null submission made while the queue
depth is k, the (k+1)-th subsequent pull yields end-of-stream and every
later pull does too: once the k queued frames are drained, every further
pull returns AVERROR_EOF. -/
theorem C7_eof_termination (st : State) (flags : Flags) (o : AllocOracle) (m : Nat) :
    (pullN (av_buffersrc_add_frame_internal st none flags o).2.1.ctx.fifo.length
        (av_buffersrc_add_frame_internal st none flags o).2.1).1 =
      List.replicate (av_buffersrc_add_frame_internal st none flags o).2.1.ctx.fifo.length 0 ∧
    (pullN m (pullN (av_buffersrc_add_frame_internal st none flags o).2.1.ctx.fifo.length
        (av_buffersrc_add_frame_internal st none flags o).2.1).2).1 =
      List.replicate m AVERROR_EOF := by
  rw [internal_none_eq]
  have hd := pullN_drain st.ctx.fifo { st with ctx := { st.ctx with eof := true } } rfl
  constructor
  · exact hd.1
  · show (pullN m (pullN st.ctx.fifo.length
        ({ st with ctx := { st.ctx with eof := true } } : State)).2).1 = _
    rw [pullN_eof_forever m _ hd.2.1 (hd.2.2.2.1.trans rfl)]

/-- Claim C10: with KEEP_REF set and a non-null frame, the wrapper leaves
the caller's handle untouched on success and on every failure path, and
the clone wrapper never leaks: the stage's allocation ledger moves
exactly with the queue depth. -/
theorem C10_keep_ref_clone (st : State) (f : FrameProps) (flags : Flags) (o : AllocOracle)
    (hk : flags.keep_ref = true) :
    (av_buffersrc_add_frame_flags st (some f) flags o).2.2 = some f ∧
    (av_buffersrc_add_frame_flags st (some f) flags o).2.1.live + (st.ctx.fifo.length : Int) =
      st.live + ((av_buffersrc_add_frame_flags st (some f) flags o).2.1.ctx.fifo.length : Int) :=
  ⟨wrapper_keep_ref_frame st f flags o hk, wrapper_live_delta st f flags o hk⟩

/-- Witness for C10 at a concrete KEEP_REF submission. -/
theorem C10_keep_ref_clone_witness :
    flagsKR.keep_ref = true ∧
    (av_buffersrc_add_frame_flags stA (some frameA) flagsKR oGood).2.2 = some frameA ∧
    (av_buffersrc_add_frame_flags stA (some frameA) flagsKR oGood).2.1.live +
        (stA.ctx.fifo.length : Int) =
      stA.live +
        ((av_buffersrc_add_frame_flags stA (some frameA) flagsKR oGood).2.1.ctx.fifo.length :
          Int) :=
  ⟨by decide, C10_keep_ref_clone stA frameA flagsKR oGood (by decide)⟩

/-- Claim C8: audio initialization requires a sample format and at least
one of channels/channel_layout: with only a layout given the channel
count is derived from it; with both given and disagreeing, or with
neither given, initialization fails with EINVAL. -/
theorem C8_init_audio_reconcile (a : AudioInitArgs) (opts_ret : Int) (fifo_ok : Bool) :
    (0 ≤ opts_ret → a.sample_fmt = AV_SAMPLE_FMT_NONE →
      (init_audio a opts_ret fifo_ok).1 = AVERROR_EINVAL) ∧
    (0 ≤ opts_ret → a.sample_fmt ≠ AV_SAMPLE_FMT_NONE → a.layout_given = true →
      a.channel_layout ≠ 0 → a.channels = 0 →
      (init_audio a opts_ret true).1 = 0 ∧
      (init_audio a opts_ret true).2.channels = (nbChannels a.channel_layout : Int)) ∧
    (0 ≤ opts_ret → a.sample_fmt ≠ AV_SAMPLE_FMT_NONE → a.layout_given = true →
      a.channels ≠ 0 → (nbChannels a.channel_layout : Int) ≠ a.channels →
      (init_audio a opts_ret fifo_ok).1 = AVERROR_EINVAL) ∧
    (0 ≤ opts_ret → a.sample_fmt ≠ AV_SAMPLE_FMT_NONE → a.layout_given = false →
      a.channels = 0 → (init_audio a opts_ret fifo_ok).1 = AVERROR_EINVAL) := by
  refine ⟨?_, ?_, ?_, ?_⟩
  · intro h0 hf
    simp [init_audio, not_lt.mpr h0, hf]
  · intro h0 hf hl hcl hch
    refine ⟨?_, ?_⟩ <;>
      · simp [init_audio, not_lt.mpr h0, hf, hl, hcl, hch, init_audio_finish]
        try split_ifs <;> simp
  · intro h0 hf hl hch hnb
    by_cases hcl : a.channel_layout = 0
    · simp [init_audio, not_lt.mpr h0, hf, hl, hcl]
    · simp [init_audio, not_lt.mpr h0, hf, hl, hcl, hch, hnb]
  · intro h0 hf hl hch
    simp [init_audio, not_lt.mpr h0, hf, hl, hch]

lemma strchrIdx_eq_none (l : List Char) (t : Char) :
    strchrIdx l t = none ↔ t ∉ l := by
  induction l with
  | nil => simp [strchrIdx]
  | cons c l ih =>
    by_cases h : c = t
    · simp [strchrIdx, h]
    · simp [strchrIdx, h, ih, Ne.symm h]

lemma strchrIdx_eq_some (l : List Char) (t : Char) : ∀ i, strchrIdx l t = some i →
    l.get? i = some t ∧ ∀ j, j < i → l.get? j ≠ some t := by
  induction l with
  | nil => intro i h; simp [strchrIdx] at h
  | cons c l ih =>
    intro i h
    simp only [strchrIdx] at h
    by_cases hc : c = t
    · rw [if_pos hc] at h
      cases h
      exact ⟨by simp [hc], fun j hj => absurd hj (Nat.not_lt_zero j)⟩
    · rw [if_neg hc] at h
      rcases Option.map_eq_some'.mp h with ⟨i2, hi2, hplus⟩
      subst hplus
      have hrec := ih i2 hi2
      refine ⟨by simpa using hrec.1, ?_⟩
      intro j hj
      cases j with
      | zero => simp [hc]
      | succ j2 =>
        intro hg
        exact hrec.2 j2 (by omega) (by simpa using hg)

lemma choose_kv_iff (l : List Char) :
    init_video_choose_kv l = true ↔ eqBeforeFirstColon l := by
  rcases he : strchrIdx l '=' with _ | e <;> rcases hc : strchrIdx l ':' with _ | c <;>
    simp only [init_video_choose_kv, he, hc, eqBeforeFirstColon]
  · have h0 := (strchrIdx_eq_none l '=').mp he
    constructor
    · intro h; simp at h
    · rintro ⟨i, hi, hcol⟩
      exact absurd (List.get?_mem hi) h0
  · have h0 := (strchrIdx_eq_none l '=').mp he
    constructor
    · intro h; simp at h
    · rintro ⟨i, hi, hcol⟩
      exact absurd (List.get?_mem hi) h0
  · constructor
    · intro _
      have hE := strchrIdx_eq_some l '=' e he
      have hcn := (strchrIdx_eq_none l ':').mp hc
      exact ⟨e, hE.1, fun j _ hj => absurd (List.get?_mem hj) hcn⟩
    · intro _; trivial
  · rw [decide_eq_true_eq]
    have hE := strchrIdx_eq_some l '=' e he
    have hC := strchrIdx_eq_some l ':' c hc
    constructor
    · intro hlt
      exact ⟨e, hE.1, fun j hj => hC.2 j (lt_trans hj hlt)⟩
    · rintro ⟨i, hi, hcol⟩
      have h1 : ¬ i < e := fun hlt => hE.2 i hlt hi
      have h2 : i < c := by
        by_contra hno
        push_neg at hno
        rcases lt_or_eq_of_le hno with hlt | heq
        · exact hcol c hlt hC.1
        · rw [← heq] at hi
          rw [hC.1] at hi
          simp at hi
      omega

/-- Claim C9: video initialization chooses the key=value parse exactly
when a '=' appears before the first ':' (or no ':' is present);
otherwise the positional parse runs and fails with EINVAL unless exactly
seven fields were scanned. -/
theorem C9_init_video_forms (l : List Char) (o : VideoInitOracle) :
    (init_video_choose_kv l = true ↔ eqBeforeFirstColon l) ∧
    (init_video_choose_kv l = true → init_video (some l) o = init_video_kv o) ∧
    (init_video_choose_kv l = false → init_video (some l) o = init_video_positional o) ∧
    (init_video_choose_kv l = false → o.scan_n ≠ 7 →
      (init_video (some l) o).1 = AVERROR_EINVAL) := by
  refine ⟨choose_kv_iff l, ?_, ?_, ?_⟩
  · intro h
    simp [init_video, h]
  · intro h
    simp [init_video, h]
  · intro h hn
    simp [init_video, h, init_video_positional, hn]

end BufferSrc
